import Mathlib

/-!
# Postal-code lookup race (`cmd/main.go`)

A shallow embedding of the HTTP handler that asks two address providers
(ViaCEP and BrasilAPI) for the same postal code concurrently and answers with
whichever normalized address reaches the shared channel first.

* Go `string` and `[]byte` values are byte sequences; both are represented by
  `String`, and the conversion `[]byte(s)` is the identity.
* `fmt.Sprintf` is embedded as a small format interpreter (`Sprintf`).
* The standard-library calls whose result depends on the outside world
  (URL validation inside `http.NewRequestWithContext`, `http.DefaultClient.Do`,
  `io.ReadAll`, `json.Unmarshal`) are fields of a `World` record.
* A provider client is a function from the world to the list of effects it
  performs in program order (`Event`), the channel send included.
* The handler, its two goroutines and the unbuffered channel form a
  transition system (`Sys`, `step`, `run`): a schedule is a list of `Action`s.
-/

namespace CepRace

/-! ## `fmt.Sprintf` over string operands -/

/-- One piece of a parsed format string. -/
inductive Piece where
  | lit (s : String)
  | verb (c : Char)
  | percent
  | noverb
deriving DecidableEq, Repr

/-- Emit the pending literal run, if any, in front of `rest`. -/
def flushLit (acc : String) (rest : List Piece) : List Piece :=
  if acc = "" then rest else Piece.lit acc :: rest

/-- Scan a format string left to right: ordinary characters are gathered into
literal runs, `%%` is a literal percent sign, `%c` is the verb `c`, and a
`%` that ends the format has no verb. Flags, widths and argument indexes do
not occur in this program and are not represented. -/
def parseFormat : List Char → String → List Piece
  | [], acc => flushLit acc []
  | c :: cs, acc =>
    if c = '%' then
      match cs with
      | [] => flushLit acc [Piece.noverb]
      | d :: ds =>
        if d = '%' then flushLit acc (Piece.percent :: parseFormat ds "")
        else flushLit acc (Piece.verb d :: parseFormat ds "")
    else parseFormat cs (acc.push c)

/-- Render parsed pieces against string operands, as `fmt` does: `%s` and `%v`
print the operand's bytes unchanged, any other verb prints the bad-verb
marker, a verb without an operand prints `%!c(MISSING)`, and operands left
over at the end are listed after `%!(EXTRA `. -/
def render : List Piece → List String → String
  | [], [] => ""
  | [], a :: as =>
    "%!(EXTRA " ++ ", ".intercalate ((a :: as).map (fun x => "string=" ++ x)) ++ ")"
  | Piece.lit s :: ps, args => s ++ render ps args
  | Piece.percent :: ps, args => "%" ++ render ps args
  | Piece.noverb :: ps, args => "%!(NOVERB)" ++ render ps args
  | Piece.verb c :: ps, [] => "%!" ++ c.toString ++ "(MISSING)" ++ render ps []
  | Piece.verb c :: ps, a :: as =>
    (if c = 's' ∨ c = 'v' then a else "%!" ++ c.toString ++ "(string=" ++ a ++ ")")
      ++ render ps as

/-- The call `fmt.Sprintf(format, args...)` with string operands. -/
def Sprintf (format : String) (args : List String) : String :=
  render (parseFormat format.data "") args

/-! ## Provider responses and their normalizers -/

/-- The struct `BrasilApiResponse`. -/
structure BrasilApiResponse where
  CEP : String
  State : String
  City : String
  Neighborhood : String
  Street : String
  Service : String
deriving DecidableEq, Repr

/-- The method `(*BrasilApiResponse).ToString`. -/
def BrasilApiResponse.ToString (r : BrasilApiResponse) : String :=
  Sprintf "Fonte BrasilAPI >>> CEP:%s, Cidade:%s-%s, Logradouro:%s - Bairro:%s"
    [r.CEP, r.City, r.State, r.Street, r.Neighborhood]

/-- The struct `ViaCEPResponse`. -/
structure ViaCEPResponse where
  CEP : String
  Logradouro : String
  Complemento : String
  Bairro : String
  Localidade : String
  UF : String
  DDD : String
deriving DecidableEq, Repr

/-- The method `(*ViaCEPResponse).ToString`. -/
def ViaCEPResponse.ToString (r : ViaCEPResponse) : String :=
  Sprintf "Fonte ViaCEP >>> CEP:%s, Cidade:%s-%s, Logradouro:%s - Bairro:%s"
    [r.CEP, r.Localidade, r.UF, r.Logradouro, r.Bairro]

/-! ## The outside world -/

/-- An `*http.Request` as built by `http.NewRequestWithContext`: the deadline
of its context (nanoseconds), the method, the URL string and the body. -/
structure Request where
  timeout : Nat
  method : String
  url : String
  body : Option String
deriving DecidableEq, Repr

/-- An `*http.Response`: its status code and what `io.ReadAll(resp.Body)`
yields (the bytes, or the error text). The clients never look at the code. -/
structure Response where
  StatusCode : Nat
  Body : Except String String

/-- Everything the clients obtain from outside the program. An error is
represented by the text of `err.Error()`. -/
structure World where
  /-- The error, if any, with which `http.NewRequestWithContext` rejects a method and URL. -/
  requestError : String → String → Option String
  /-- The call `http.DefaultClient.Do(req)`, deadline included. -/
  clientDo : Request → Except String Response
  /-- The call `json.Unmarshal(body, &address)` for a `BrasilApiResponse`. -/
  unmarshalBrasilApi : String → Except String BrasilApiResponse
  /-- The call `json.Unmarshal(body, &address)` for a `ViaCEPResponse`. -/
  unmarshalViaCEP : String → Except String ViaCEPResponse

/-- The constant `http.MethodGet`. -/
def MethodGet : String := "GET"

/-- The constant `http.StatusOK`. -/
def StatusOK : Nat := 200

/-- The constant `http.StatusBadRequest`. -/
def StatusBadRequest : Nat := 400

/-- The duration `1*time.Second`, in nanoseconds. -/
def oneSecond : Nat := 1 * 1000000000

/-- The call `http.NewRequestWithContext(ctx, method, url, body)`. -/
def NewRequestWithContext (net : World) (timeout : Nat) (method url : String)
    (body : Option String) : Except String Request :=
  match net.requestError method url with
  | some err => Except.error err
  | none => Except.ok { timeout := timeout, method := method, url := url, body := body }

/-! ## Provider clients -/

/-- An effect of a provider client, in program order. -/
inductive Event where
  | newRequest (timeout : Nat) (method url : String) (body : Option String)
  | httpDo (req : Request)
  | log (line : String)
  | send (ch : Nat) (v : String)
  | closeBody
  | cancel
deriving DecidableEq, Repr

/-- The function `getAddressFromBrasilAPI(cep, ch)`: the effects of one run to
completion, the deferred calls last. -/
def getAddressFromBrasilAPI (net : World) (cep : String) (ch : Nat) : List Event :=
  let url := Sprintf "https://brasilapi.com.br/api/cep/v1/%s" [cep]
  match NewRequestWithContext net oneSecond MethodGet url none with
  | Except.error err =>
    [Event.newRequest oneSecond MethodGet url none,
     Event.log (Sprintf "Error creating BrasilAPI request. Err:%s" [err]),
     Event.cancel]
  | Except.ok req =>
    match net.clientDo req with
    | Except.error err =>
      [Event.newRequest oneSecond MethodGet url none, Event.httpDo req,
       Event.log (Sprintf "Error while executing request to BrasilAPI. Err:%s" [err]),
       Event.cancel]
    | Except.ok resp =>
      match resp.Body with
      | Except.error err =>
        [Event.newRequest oneSecond MethodGet url none, Event.httpDo req,
         Event.log (Sprintf "Error while reading result from BrasilAPI. Err:%s" [err]),
         Event.closeBody, Event.cancel]
      | Except.ok body =>
        match net.unmarshalBrasilApi body with
        | Except.error err =>
          [Event.newRequest oneSecond MethodGet url none, Event.httpDo req,
           Event.log (Sprintf "Error while converting result from BrasilAPI. Err:%s" [err]),
           Event.closeBody, Event.cancel]
        | Except.ok address =>
          [Event.newRequest oneSecond MethodGet url none, Event.httpDo req,
           Event.send ch address.ToString,
           Event.closeBody, Event.cancel]

/-- The function `getAddressFromViaCEP(cep, ch)`: the effects of one run to
completion, the deferred calls last. -/
def getAddressFromViaCEP (net : World) (cep : String) (ch : Nat) : List Event :=
  let url := Sprintf "http://viacep.com.br/ws/%s/json/" [cep]
  match NewRequestWithContext net oneSecond MethodGet url none with
  | Except.error err =>
    [Event.newRequest oneSecond MethodGet url none,
     Event.log (Sprintf "Error creating ViaCEP request. Err:%s" [err]),
     Event.cancel]
  | Except.ok req =>
    match net.clientDo req with
    | Except.error err =>
      [Event.newRequest oneSecond MethodGet url none, Event.httpDo req,
       Event.log (Sprintf "Error executing ViaCEP request. Err:%s" [err]),
       Event.cancel]
    | Except.ok resp =>
      match resp.Body with
      | Except.error err =>
        [Event.newRequest oneSecond MethodGet url none, Event.httpDo req,
         Event.log (Sprintf "Error while reading ViaCEP result. Err:%s" [err]),
         Event.closeBody, Event.cancel]
      | Except.ok body =>
        match net.unmarshalViaCEP body with
        | Except.error err =>
          [Event.newRequest oneSecond MethodGet url none, Event.httpDo req,
           Event.log (Sprintf "Error while converting ViaCEP result. Err:%s" [err]),
           Event.closeBody, Event.cancel]
        | Except.ok address =>
          [Event.newRequest oneSecond MethodGet url none, Event.httpDo req,
           Event.send ch address.ToString,
           Event.closeBody, Event.cancel]

/-- The values a run sends, with their channels, in order. -/
def sends : List Event → List (Nat × String)
  | [] => []
  | Event.send ch v :: es => (ch, v) :: sends es
  | _ :: es => sends es

/-- The requests a run hands to `http.DefaultClient.Do`, in order. -/
def attempts : List Event → List Request
  | [] => []
  | Event.httpDo req :: es => req :: attempts es
  | _ :: es => attempts es

/-! ## The handler, its goroutines and the channel -/

/-- The route variables `mux.Vars(r)`: a map from names to values. -/
abbrev Vars := List (String × String)

/-- The `http.ResponseWriter` as the handler uses it: the header map, the
status line once written, and the body bytes written so far. -/
structure ResponseWriter where
  header : List (String × String)
  status : Option Nat
  body : String
deriving DecidableEq, Repr

/-- The call `w.Header().Set(key, value)`. -/
def ResponseWriter.HeaderSet (w : ResponseWriter) (key value : String) : ResponseWriter :=
  { w with header := (key, value) :: w.header.filter (fun p => p.1 != key) }

/-- The call `w.WriteHeader(code)`: only the first status line counts. -/
def ResponseWriter.WriteHeader (w : ResponseWriter) (code : Nat) : ResponseWriter :=
  match w.status with
  | some _ => w
  | none => { w with status := some code }

/-- The call `w.Write(b)`: an unwritten status line is written as 200 first. -/
def ResponseWriter.Write (w : ResponseWriter) (b : String) : ResponseWriter :=
  let w1 := w.WriteHeader StatusOK
  { w1 with body := w1.body ++ b }

/-- A `go` statement of the handler: which client it starts, on which postal
code and channel. -/
inductive Call where
  | viaCEP (cep : String) (ch : Nat)
  | brasilAPI (cep : String) (ch : Nat)
deriving DecidableEq, Repr

/-- The effects of running a started client to completion. -/
def Call.run (net : World) : Call → List Event
  | Call.viaCEP cep ch => getAddressFromViaCEP net cep ch
  | Call.brasilAPI cep ch => getAddressFromBrasilAPI net cep ch

/-- A goroutine: the call it was started with, whether it has begun to run,
the effects it has performed and the effects still ahead of it. A goroutine
whose next effect is a send is blocked until a receiver takes the value. -/
structure Goroutine where
  call : Call
  started : Bool
  done : List Event
  todo : List Event
deriving DecidableEq, Repr

/-- Perform effects up to the next channel send, or to the end. -/
def advance : List Event → List Event → List Event × List Event
  | done, [] => (done, [])
  | done, Event.send ch v :: es => (done, Event.send ch v :: es)
  | done, Event.newRequest t m u b :: es => advance (done ++ [Event.newRequest t m u b]) es
  | done, Event.httpDo r :: es => advance (done ++ [Event.httpDo r]) es
  | done, Event.log l :: es => advance (done ++ [Event.log l]) es
  | done, Event.closeBody :: es => advance (done ++ [Event.closeBody]) es
  | done, Event.cancel :: es => advance (done ++ [Event.cancel]) es

/-- Where the handler stands: before its first statement, blocked on
`<-ch`, or returned. -/
inductive HandlerPc where
  | entry
  | recv (ch : Nat)
  | returned
deriving DecidableEq, Repr

/-- The state of one request: the response writer, the handler's position,
the number of channels made, the goroutines started, the values the handler
has received, and the handler's log lines. -/
structure Sys where
  w : ResponseWriter
  pc : HandlerPc
  chans : Nat
  goroutines : List Goroutine
  received : List String
  log : List String
deriving DecidableEq, Repr

/-- The state in which the router calls `handler`. -/
def Sys.init : Sys :=
  { w := { header := [], status := none, body := "" }, pc := HandlerPc.entry, chans := 0,
    goroutines := [], received := [], log := [] }

/-- The handler from its first statement to its first blocking point: either
the 400 answer and the return, or the channel, the two `go` statements and
the receive. -/
def handlerEntry (vars : Vars) (s : Sys) : Sys :=
  let log1 := s.log ++ ["Request received on server..."]
  match vars.lookup "cep" with
  | none =>
    { s with
      w := (s.w.HeaderSet "Content-Type" "application/json").WriteHeader StatusBadRequest,
      pc := HandlerPc.returned,
      log := log1 ++ ["Request finished..."] }
  | some cep =>
    let ch := s.chans
    { s with
      chans := s.chans + 1,
      goroutines := s.goroutines ++
        [{ call := Call.viaCEP cep ch, started := false, done := [], todo := [] },
         { call := Call.brasilAPI cep ch, started := false, done := [], todo := [] }],
      pc := HandlerPc.recv ch,
      log := log1 }

/-- The handler from the value it received to its return. -/
def handlerResume (address : String) (s : Sys) : Sys :=
  { s with
    received := s.received ++ [address],
    w := (((s.w.HeaderSet "Content-Type" "application/json").WriteHeader StatusOK).Write address),
    pc := HandlerPc.returned,
    log := s.log ++ ["Request processed successfully", Sprintf "Resultado >>> %s" [address],
      "Request finished..."] }

/-- A scheduling decision. -/
inductive Action where
  | handler
  | provider (i : Nat)
  | rendezvous (i : Nat)
deriving DecidableEq, Repr

/-- One transition. `handler` runs the handler from its entry; `provider i`
lets goroutine `i` begin and run to its send or its end; `rendezvous i`
hands the value goroutine `i` is sending to the handler blocked on the same
channel, after which the handler answers and the goroutine runs on. A
decision that is not enabled yields `none`. -/
def step (net : World) (vars : Vars) (s : Sys) : Action → Option Sys
  | Action.handler =>
    match s.pc with
    | HandlerPc.entry => some (handlerEntry vars s)
    | _ => none
  | Action.provider i =>
    match s.goroutines[i]? with
    | none => none
    | some g =>
      if g.started then none
      else
        let r := advance [] (g.call.run net)
        some { s with goroutines := s.goroutines.set i { g with started := true, done := r.1, todo := r.2 } }
  | Action.rendezvous i =>
    match s.pc, s.goroutines[i]? with
    | HandlerPc.recv ch, some g =>
      match g.todo with
      | Event.send ch1 v :: rest =>
        if ch1 = ch then
          let r := advance (g.done ++ [Event.send ch1 v]) rest
          some (handlerResume v
            { s with goroutines := s.goroutines.set i { g with done := r.1, todo := r.2 } })
        else none
      | _ => none
    | _, _ => none

/-- Run a schedule; `none` when one of its decisions is not enabled. -/
def run (net : World) (vars : Vars) : Sys → List Action → Option Sys
  | s, [] => some s
  | s, a :: as =>
    match step net vars s a with
    | some s1 => run net vars s1 as
    | none => none

/-! ## Invariant of the transition system -/

/-- What holds of a goroutine throughout: before it begins it has done
nothing, and once begun its past and future effects together are the run of
its call. -/
def GInv (net : World) (g : Goroutine) : Prop :=
  (g.started = false → g.done = [] ∧ g.todo = []) ∧
  (g.started = true → g.done ++ g.todo = g.call.run net)

/-- The response writer after the 400 answer. -/
def badRequestWriter : ResponseWriter :=
  { header := [("Content-Type", "application/json")], status := some StatusBadRequest, body := "" }

/-- The response writer after the 200 answer with body `v`. -/
def okWriter (v : String) : ResponseWriter :=
  { header := [("Content-Type", "application/json")], status := some StatusOK, body := v }

/-- What holds of every state a schedule can reach. -/
def Inv (net : World) (vars : Vars) (s : Sys) : Prop :=
  match s.pc with
  | HandlerPc.entry => s = Sys.init
  | HandlerPc.recv ch =>
    ∃ cep g0 g1, vars.lookup "cep" = some cep ∧ ch = 0 ∧ s.chans = 1 ∧ s.w = Sys.init.w ∧
      s.received = [] ∧ s.goroutines = [g0, g1] ∧ g0.call = Call.viaCEP cep 0 ∧
      g1.call = Call.brasilAPI cep 0 ∧ GInv net g0 ∧ GInv net g1
  | HandlerPc.returned =>
    (vars.lookup "cep" = none ∧ s.w = badRequestWriter ∧ s.goroutines = [] ∧ s.chans = 0 ∧
      s.received = []) ∨
    (∃ cep v g0 g1, vars.lookup "cep" = some cep ∧ s.w = okWriter v ∧ s.received = [v] ∧
      s.chans = 1 ∧ s.goroutines = [g0, g1] ∧ g0.call = Call.viaCEP cep 0 ∧
      g1.call = Call.brasilAPI cep 0 ∧
      ((0, v) ∈ sends (g0.call.run net) ∨ (0, v) ∈ sends (g1.call.run net)))

/-! ## Sample worlds -/

/-- A world in which every request is accepted and answered, and both
decoders yield the address of postal code 01310-100. -/
def sampleWorld : World :=
  { requestError := fun _ _ => none,
    clientDo := fun _ => Except.ok { StatusCode := 200, Body := Except.ok "payload" },
    unmarshalBrasilApi := fun _ =>
      Except.ok { CEP := "01310-100", State := "SP", City := "São Paulo",
                  Neighborhood := "Bela Vista", Street := "Av. Paulista", Service := "open-cep" },
    unmarshalViaCEP := fun _ =>
      Except.ok { CEP := "01310-100", Logradouro := "Avenida Paulista", Complemento := "",
                  Bairro := "Bela Vista", Localidade := "São Paulo", UF := "SP", DDD := "11" } }

/-- A world in which every HTTP call runs into its deadline. -/
def timeoutWorld : World :=
  { requestError := fun _ _ => none,
    clientDo := fun _ => Except.error "context deadline exceeded",
    unmarshalBrasilApi := fun _ => Except.error "unexpected end of JSON input",
    unmarshalViaCEP := fun _ => Except.error "unexpected end of JSON input" }

/-- A world in which both providers answer an unknown postal code with the
JSON object `{}`, which decodes without error into a struct whose fields all
keep their zero value, the empty string. -/
def unknownCepWorld : World :=
  { requestError := fun _ _ => none,
    clientDo := fun _ => Except.ok { StatusCode := 404, Body := Except.ok "\x7b\x7d" },
    unmarshalBrasilApi := fun body =>
      if body = "\x7b\x7d" then
        Except.ok { CEP := "", State := "", City := "", Neighborhood := "", Street := "",
                    Service := "" }
      else Except.error "invalid character",
    unmarshalViaCEP := fun body =>
      if body = "\x7b\x7d" then
        Except.ok { CEP := "", Logradouro := "", Complemento := "", Bairro := "",
                    Localidade := "", UF := "", DDD := "" }
      else Except.error "invalid character" }

/-- Route variables binding `cep` to the postal code 01310-100. -/
def sampleVars : Vars := [("cep", "01310-100")]

/-- The state reached when the ViaCEP client wins the race in the sample world. -/
def viaCEPWins : Sys :=
  (run sampleWorld sampleVars Sys.init
    [Action.handler, Action.provider 0, Action.provider 1, Action.rendezvous 0]).getD Sys.init

/-- The state reached when both clients have run into their deadline. -/
def bothTimedOut : Sys :=
  (run timeoutWorld sampleVars Sys.init
    [Action.handler, Action.provider 1, Action.provider 0]).getD Sys.init

/-! # Theorems -/

/-! ## Format strings of the program -/

theorem parseFormat_brasil :
    parseFormat "Fonte BrasilAPI >>> CEP:%s, Cidade:%s-%s, Logradouro:%s - Bairro:%s".data "" =
      [Piece.lit "Fonte BrasilAPI >>> CEP:", Piece.verb 's', Piece.lit ", Cidade:",
       Piece.verb 's', Piece.lit "-", Piece.verb 's', Piece.lit ", Logradouro:",
       Piece.verb 's', Piece.lit " - Bairro:", Piece.verb 's'] := by
  decide

theorem parseFormat_viaCEP :
    parseFormat "Fonte ViaCEP >>> CEP:%s, Cidade:%s-%s, Logradouro:%s - Bairro:%s".data "" =
      [Piece.lit "Fonte ViaCEP >>> CEP:", Piece.verb 's', Piece.lit ", Cidade:",
       Piece.verb 's', Piece.lit "-", Piece.verb 's', Piece.lit ", Logradouro:",
       Piece.verb 's', Piece.lit " - Bairro:", Piece.verb 's'] := by
  decide

theorem parseFormat_brasilURL :
    parseFormat "https://brasilapi.com.br/api/cep/v1/%s".data "" =
      [Piece.lit "https://brasilapi.com.br/api/cep/v1/", Piece.verb 's'] := by
  decide

theorem parseFormat_viaCEPURL :
    parseFormat "http://viacep.com.br/ws/%s/json/".data "" =
      [Piece.lit "http://viacep.com.br/ws/", Piece.verb 's', Piece.lit "/json/"] := by
  decide

theorem brasilToString_eq (r : BrasilApiResponse) :
    r.ToString = "Fonte BrasilAPI >>> CEP:" ++ r.CEP ++ ", Cidade:" ++ r.City ++ "-" ++ r.State
      ++ ", Logradouro:" ++ r.Street ++ " - Bairro:" ++ r.Neighborhood := by
  unfold BrasilApiResponse.ToString Sprintf
  rw [parseFormat_brasil]
  simp only [render, String.append_assoc, String.append_empty, true_or, if_true]

theorem viaCEPToString_eq (r : ViaCEPResponse) :
    r.ToString = "Fonte ViaCEP >>> CEP:" ++ r.CEP ++ ", Cidade:" ++ r.Localidade ++ "-" ++ r.UF
      ++ ", Logradouro:" ++ r.Logradouro ++ " - Bairro:" ++ r.Bairro := by
  unfold ViaCEPResponse.ToString Sprintf
  rw [parseFormat_viaCEP]
  simp only [render, String.append_assoc, String.append_empty, true_or, if_true]

theorem brasilURL_eq (cep : String) :
    Sprintf "https://brasilapi.com.br/api/cep/v1/%s" [cep] =
      "https://brasilapi.com.br/api/cep/v1/" ++ cep := by
  unfold Sprintf
  rw [parseFormat_brasilURL]
  simp only [render, String.append_assoc, String.append_empty, true_or, if_true]

theorem viaCEPURL_eq (cep : String) :
    Sprintf "http://viacep.com.br/ws/%s/json/" [cep] =
      "http://viacep.com.br/ws/" ++ cep ++ "/json/" := by
  unfold Sprintf
  rw [parseFormat_viaCEPURL]
  simp only [render, String.append_assoc, String.append_empty, true_or, if_true]

/-! ## Provider clients, case by case -/

theorem brasil_ok (net : World) (cep : String) (ch : Nat) (req : Request) (resp : Response)
    (body : String) (addr : BrasilApiResponse)
    (h1 : NewRequestWithContext net oneSecond MethodGet
      (Sprintf "https://brasilapi.com.br/api/cep/v1/%s" [cep]) none = Except.ok req)
    (h2 : net.clientDo req = Except.ok resp) (h3 : resp.Body = Except.ok body)
    (h4 : net.unmarshalBrasilApi body = Except.ok addr) :
    getAddressFromBrasilAPI net cep ch =
      [Event.newRequest oneSecond MethodGet (Sprintf "https://brasilapi.com.br/api/cep/v1/%s" [cep]) none,
       Event.httpDo req, Event.send ch addr.ToString, Event.closeBody, Event.cancel] := by
  simp only [getAddressFromBrasilAPI, h1, h2, h3, h4]

theorem brasil_mem (net : World) (cep : String) (ch c : Nat) (v : String)
    (h : (c, v) ∈ sends (getAddressFromBrasilAPI net cep ch)) :
    ∃ req resp body addr,
      NewRequestWithContext net oneSecond MethodGet
        (Sprintf "https://brasilapi.com.br/api/cep/v1/%s" [cep]) none = Except.ok req ∧
      net.clientDo req = Except.ok resp ∧ resp.Body = Except.ok body ∧
      net.unmarshalBrasilApi body = Except.ok addr ∧ c = ch ∧ v = addr.ToString := by
  simp only [getAddressFromBrasilAPI] at h
  split at h
  · simp [sends] at h
  · rename_i req h1
    split at h
    · simp [sends] at h
    · rename_i resp h2
      split at h
      · simp [sends] at h
      · rename_i body h3
        split at h
        · simp [sends] at h
        · rename_i addr h4
          simp [sends] at h
          exact ⟨req, resp, body, addr, h1, h2, h3, h4, h.1, h.2⟩

theorem brasil_attempts (net : World) (cep : String) (ch : Nat) :
    (attempts (getAddressFromBrasilAPI net cep ch)).length ≤ 1 := by
  simp only [getAddressFromBrasilAPI]
  split
  · simp [attempts]
  · split
    · simp [attempts]
    · split
      · simp [attempts]
      · split <;> simp [attempts]

theorem viaCEP_ok (net : World) (cep : String) (ch : Nat) (req : Request) (resp : Response)
    (body : String) (addr : ViaCEPResponse)
    (h1 : NewRequestWithContext net oneSecond MethodGet
      (Sprintf "http://viacep.com.br/ws/%s/json/" [cep]) none = Except.ok req)
    (h2 : net.clientDo req = Except.ok resp) (h3 : resp.Body = Except.ok body)
    (h4 : net.unmarshalViaCEP body = Except.ok addr) :
    getAddressFromViaCEP net cep ch =
      [Event.newRequest oneSecond MethodGet (Sprintf "http://viacep.com.br/ws/%s/json/" [cep]) none,
       Event.httpDo req, Event.send ch addr.ToString, Event.closeBody, Event.cancel] := by
  simp only [getAddressFromViaCEP, h1, h2, h3, h4]

theorem viaCEP_mem (net : World) (cep : String) (ch c : Nat) (v : String)
    (h : (c, v) ∈ sends (getAddressFromViaCEP net cep ch)) :
    ∃ req resp body addr,
      NewRequestWithContext net oneSecond MethodGet
        (Sprintf "http://viacep.com.br/ws/%s/json/" [cep]) none = Except.ok req ∧
      net.clientDo req = Except.ok resp ∧ resp.Body = Except.ok body ∧
      net.unmarshalViaCEP body = Except.ok addr ∧ c = ch ∧ v = addr.ToString := by
  simp only [getAddressFromViaCEP] at h
  split at h
  · simp [sends] at h
  · rename_i req h1
    split at h
    · simp [sends] at h
    · rename_i resp h2
      split at h
      · simp [sends] at h
      · rename_i body h3
        split at h
        · simp [sends] at h
        · rename_i addr h4
          simp [sends] at h
          exact ⟨req, resp, body, addr, h1, h2, h3, h4, h.1, h.2⟩

theorem viaCEP_attempts (net : World) (cep : String) (ch : Nat) :
    (attempts (getAddressFromViaCEP net cep ch)).length ≤ 1 := by
  simp only [getAddressFromViaCEP]
  split
  · simp [attempts]
  · split
    · simp [attempts]
    · split
      · simp [attempts]
      · split <;> simp [attempts]

/-! ## Reachable states -/

theorem sends_append (a b : List Event) : sends (a ++ b) = sends a ++ sends b := by
  induction a with
  | nil => rfl
  | cons e es ih => cases e <;> simp [sends, ih]

theorem advance_append (es : List Event) :
    ∀ d, (advance d es).1 ++ (advance d es).2 = d ++ es := by
  induction es with
  | nil => intro d; simp [advance]
  | cons e es ih => intro d; cases e <;> simp [advance, ih]

theorem GInv_start (net : World) (g : Goroutine) :
    GInv net { g with started := true, done := (advance [] (g.call.run net)).1,
                      todo := (advance [] (g.call.run net)).2 } := by
  constructor
  · intro h; simp at h
  · intro _; simpa using advance_append (g.call.run net) []

theorem Inv_init (net : World) (vars : Vars) : Inv net vars Sys.init := by
  simp [Inv, Sys.init]

theorem Inv_handlerEntry (net : World) (vars : Vars) : Inv net vars (handlerEntry vars Sys.init) := by
  unfold handlerEntry
  cases h : vars.lookup "cep" with
  | none =>
    simp only [Inv]
    exact Or.inl ⟨h, rfl, rfl, rfl, rfl⟩
  | some cep =>
    simp only [Inv]
    refine ⟨cep, _, _, h, rfl, rfl, trivial, rfl, rfl, rfl, rfl, ?_, ?_⟩ <;>
      simp [GInv]


theorem GInv_send_mem (net : World) (g : Goroutine) (c : Nat) (v : String) (rest : List Event)
    (hg : GInv net g) (ht : g.todo = Event.send c v :: rest) :
    (c, v) ∈ sends (g.call.run net) := by
  cases hst : g.started with
  | false =>
    have := (hg.1 hst).2
    rw [ht] at this
    simp at this
  | true =>
    have := hg.2 hst
    rw [← this, ht, sends_append]
    simp [sends]

theorem handlerResume_writer (v : String) (s : Sys) (hw : s.w = Sys.init.w) :
    (handlerResume v s).w = okWriter v := by
  simp [handlerResume, hw, Sys.init, ResponseWriter.HeaderSet, ResponseWriter.WriteHeader,
    ResponseWriter.Write, okWriter]

theorem Inv_step (net : World) (vars : Vars) (s s1 : Sys) (a : Action)
    (hs : Inv net vars s) (h : step net vars s a = some s1) : Inv net vars s1 := by
  cases a with
  | handler =>
    simp only [step] at h
    cases hpc : s.pc with
    | entry =>
      rw [hpc] at h
      simp only [Inv, hpc] at hs
      simp only [Option.some.injEq] at h
      subst h
      subst hs
      exact Inv_handlerEntry net vars
    | recv ch => rw [hpc] at h; simp at h
    | returned => rw [hpc] at h; simp at h
  | provider i =>
    simp only [step] at h
    cases hg : s.goroutines[i]? with
    | none => rw [hg] at h; simp at h
    | some g =>
      rw [hg] at h
      simp only at h
      split at h
      · simp at h
      · rename_i hst
        simp only [Option.some.injEq] at h
        subst h
        cases hpc : s.pc with
        | entry =>
          simp only [Inv, hpc] at hs
          subst hs
          simp [Sys.init] at hg
        | recv ch =>
          simp only [Inv, hpc] at hs ⊢
          obtain ⟨cep, g0, g1, hc, hch, hn, hw, hr, hgs, hc0, hc1, hi0, hi1⟩ := hs
          rw [hgs] at hg ⊢
          rcases i with _ | _ | i
          · simp only [List.getElem?_cons_zero, Option.some.injEq] at hg
            subst hg
            exact ⟨cep, _, g1, hc, hch, hn, hw, hr, rfl, hc0, hc1, GInv_start net g0, hi1⟩
          · simp only [List.getElem?_cons_succ, List.getElem?_cons_zero, Option.some.injEq] at hg
            subst hg
            exact ⟨cep, g0, _, hc, hch, hn, hw, hr, rfl, hc0, hc1, hi0, GInv_start net g1⟩
          · simp at hg
        | returned =>
          simp only [Inv, hpc] at hs ⊢
          rcases hs with ⟨_, _, hgs, _, _⟩ | ⟨cep, v, g0, g1, hc, hw, hr, hn, hgs, hc0, hc1, hm⟩
          · rw [hgs] at hg
            simp at hg
          · right
            rw [hgs] at hg ⊢
            rcases i with _ | _ | i
            · simp only [List.getElem?_cons_zero, Option.some.injEq] at hg
              subst hg
              exact ⟨cep, v, _, g1, hc, hw, hr, hn, rfl, hc0, hc1, hm⟩
            · simp only [List.getElem?_cons_succ, List.getElem?_cons_zero, Option.some.injEq] at hg
              subst hg
              exact ⟨cep, v, g0, _, hc, hw, hr, hn, rfl, hc0, hc1, hm⟩
            · simp at hg
  | rendezvous i =>
    cases hpc : s.pc with
    | entry => simp [step, hpc] at h
    | returned => simp [step, hpc] at h
    | recv ch =>
      simp only [Inv, hpc] at hs
      obtain ⟨cep, g0, g1, hc, hch, hn, hw, hr, hgs, hc0, hc1, hi0, hi1⟩ := hs
      subst hch
      cases hg : s.goroutines[i]? with
      | none => simp [step, hpc, hg] at h
      | some g =>
        simp only [step, hpc, hg] at h
        split at h
        · rename_i ch1 v rest htodo
          split at h
          · rename_i hch1
            subst hch1
            simp only [Option.some.injEq] at h
            subst h
            simp only [Inv, handlerResume]
            right
            rw [hgs] at hg ⊢
            rcases i with _ | _ | i
            · simp only [List.getElem?_cons_zero, Option.some.injEq] at hg
              subst hg
              refine ⟨cep, v, _, g1, hc, ?_, by simp [hr], hn, rfl, hc0, hc1, ?_⟩
              · exact handlerResume_writer v _ hw
              · exact Or.inl (GInv_send_mem net g0 0 v rest hi0 htodo)
            · simp only [List.getElem?_cons_succ, List.getElem?_cons_zero, Option.some.injEq] at hg
              subst hg
              refine ⟨cep, v, g0, _, hc, ?_, by simp [hr], hn, rfl, hc0, hc1, ?_⟩
              · exact handlerResume_writer v _ hw
              · exact Or.inr (GInv_send_mem net g1 0 v rest hi1 htodo)
            · simp at hg
          · simp at h
        · simp at h

theorem Inv_run (net : World) (vars : Vars) (acts : List Action) :
    ∀ s s1, Inv net vars s → run net vars s acts = some s1 → Inv net vars s1 := by
  induction acts with
  | nil =>
    intro s s1 hs h
    simp only [run, Option.some.injEq] at h
    subst h
    exact hs
  | cons a as ih =>
    intro s s1 hs h
    simp only [run] at h
    cases hstep : step net vars s a with
    | none => rw [hstep] at h; simp at h
    | some s2 =>
      rw [hstep] at h
      exact ih s2 s1 (Inv_step net vars s s2 a hs hstep) h

theorem Inv_reachable (net : World) (vars : Vars) (acts : List Action) (s : Sys)
    (h : run net vars Sys.init acts = some s) : Inv net vars s :=
  Inv_run net vars acts Sys.init s (Inv_init net vars) h

/-! ## Normalizers -/

theorem data_infix_of_eq {s a x b : String} (h : s = a ++ x ++ b) : x.data <:+: s.data := by
  subst h
  exact ⟨a.data, b.data, by simp [String.data_append]⟩

/-- C5: `BrasilApiResponse.ToString` is the concatenation of the BrasilAPI
source tag with the postal code, city, state, street and neighborhood in the
documented layout; each of those values occurs in the result; and the
example address of postal code 01310-100 yields the documented line,
whatever the service tag. -/
theorem C5_brasilApi_toString (r : BrasilApiResponse) :
    r.ToString = "Fonte BrasilAPI >>> CEP:" ++ r.CEP ++ ", Cidade:" ++ r.City ++ "-" ++ r.State
      ++ ", Logradouro:" ++ r.Street ++ " - Bairro:" ++ r.Neighborhood ∧
    "Fonte BrasilAPI".data <:+: r.ToString.data ∧
    r.CEP.data <:+: r.ToString.data ∧ r.City.data <:+: r.ToString.data ∧
    r.State.data <:+: r.ToString.data ∧ r.Street.data <:+: r.ToString.data ∧
    r.Neighborhood.data <:+: r.ToString.data ∧
    ∀ service : String,
      BrasilApiResponse.ToString
        { CEP := "01310-100", State := "SP", City := "São Paulo", Neighborhood := "Bela Vista",
          Street := "Av. Paulista", Service := service } =
      "Fonte BrasilAPI >>> CEP:01310-100, Cidade:São Paulo-SP, Logradouro:Av. Paulista - Bairro:Bela Vista" := by
  refine ⟨brasilToString_eq r, ?_, ?_, ?_, ?_, ?_, ?_, ?_⟩
  · apply data_infix_of_eq (a := "") (b := " >>> CEP:" ++ r.CEP ++ ", Cidade:" ++ r.City ++ "-" ++ r.State
      ++ ", Logradouro:" ++ r.Street ++ " - Bairro:" ++ r.Neighborhood)
    rw [brasilToString_eq]
    simp only [String.append_assoc, String.empty_append]
    rfl
  · apply data_infix_of_eq (a := "Fonte BrasilAPI >>> CEP:") (b := ", Cidade:" ++ r.City ++ "-" ++ r.State
      ++ ", Logradouro:" ++ r.Street ++ " - Bairro:" ++ r.Neighborhood)
    rw [brasilToString_eq]
    simp only [String.append_assoc]
  · apply data_infix_of_eq (a := "Fonte BrasilAPI >>> CEP:" ++ r.CEP ++ ", Cidade:") (b := "-" ++ r.State
      ++ ", Logradouro:" ++ r.Street ++ " - Bairro:" ++ r.Neighborhood)
    rw [brasilToString_eq]
    simp only [String.append_assoc]
  · apply data_infix_of_eq (a := "Fonte BrasilAPI >>> CEP:" ++ r.CEP ++ ", Cidade:" ++ r.City ++ "-")
      (b := ", Logradouro:" ++ r.Street ++ " - Bairro:" ++ r.Neighborhood)
    rw [brasilToString_eq]
    simp only [String.append_assoc]
  · apply data_infix_of_eq (a := "Fonte BrasilAPI >>> CEP:" ++ r.CEP ++ ", Cidade:" ++ r.City ++ "-"
      ++ r.State ++ ", Logradouro:") (b := " - Bairro:" ++ r.Neighborhood)
    rw [brasilToString_eq]
    simp only [String.append_assoc]
  · apply data_infix_of_eq (a := "Fonte BrasilAPI >>> CEP:" ++ r.CEP ++ ", Cidade:" ++ r.City ++ "-"
      ++ r.State ++ ", Logradouro:" ++ r.Street ++ " - Bairro:") (b := "")
    rw [brasilToString_eq]
    simp only [String.append_assoc, String.append_empty]
  · intro service
    rw [brasilToString_eq]
    simp only
    decide

/-- C6: `ViaCEPResponse.ToString` is the concatenation of the ViaCEP source
tag with the postal code, the locality as city, the uf as state, the
logradouro as street and the bairro as neighborhood, and its result is the
same whatever the Complemento and DDD fields hold. -/
theorem C6_viaCEP_toString (r : ViaCEPResponse) :
    r.ToString = "Fonte ViaCEP >>> CEP:" ++ r.CEP ++ ", Cidade:" ++ r.Localidade ++ "-" ++ r.UF
      ++ ", Logradouro:" ++ r.Logradouro ++ " - Bairro:" ++ r.Bairro ∧
    ∀ complemento ddd : String,
      ViaCEPResponse.ToString { r with Complemento := complemento, DDD := ddd } = r.ToString := by
  refine ⟨viaCEPToString_eq r, ?_⟩
  intro complemento ddd
  rw [viaCEPToString_eq, viaCEPToString_eq]

/-! ## Provider clients -/

theorem brasil_attempts_shape (net : World) (cep : String) (ch : Nat) :
    attempts (getAddressFromBrasilAPI net cep ch) = [] ∨
    attempts (getAddressFromBrasilAPI net cep ch) =
      [{ timeout := oneSecond, method := "GET",
         url := "https://brasilapi.com.br/api/cep/v1/" ++ cep, body := none }] := by
  simp only [getAddressFromBrasilAPI, NewRequestWithContext, brasilURL_eq, MethodGet]
  cases net.requestError "GET" ("https://brasilapi.com.br/api/cep/v1/" ++ cep) with
  | some err => left; simp [attempts]
  | none =>
    right
    simp only
    split
    · simp [attempts]
    · split
      · simp [attempts]
      · split <;> simp [attempts]

theorem viaCEP_attempts_shape (net : World) (cep : String) (ch : Nat) :
    attempts (getAddressFromViaCEP net cep ch) = [] ∨
    attempts (getAddressFromViaCEP net cep ch) =
      [{ timeout := oneSecond, method := "GET",
         url := "http://viacep.com.br/ws/" ++ cep ++ "/json/", body := none }] := by
  simp only [getAddressFromViaCEP, NewRequestWithContext, viaCEPURL_eq, MethodGet]
  cases net.requestError "GET" ("http://viacep.com.br/ws/" ++ cep ++ "/json/") with
  | some err => left; simp [attempts]
  | none =>
    right
    simp only
    split
    · simp [attempts]
    · split
      · simp [attempts]
      · split <;> simp [attempts]

theorem brasil_head (net : World) (cep : String) (ch : Nat) :
    ∃ rest, getAddressFromBrasilAPI net cep ch =
      Event.newRequest oneSecond "GET" ("https://brasilapi.com.br/api/cep/v1/" ++ cep) none
        :: rest := by
  simp only [getAddressFromBrasilAPI, brasilURL_eq, MethodGet]
  split
  · exact ⟨_, rfl⟩
  · split
    · exact ⟨_, rfl⟩
    · split
      · exact ⟨_, rfl⟩
      · split <;> exact ⟨_, rfl⟩

theorem viaCEP_head (net : World) (cep : String) (ch : Nat) :
    ∃ rest, getAddressFromViaCEP net cep ch =
      Event.newRequest oneSecond "GET" ("http://viacep.com.br/ws/" ++ cep ++ "/json/") none
        :: rest := by
  simp only [getAddressFromViaCEP, viaCEPURL_eq, MethodGet]
  split
  · exact ⟨_, rfl⟩
  · split
    · exact ⟨_, rfl⟩
    · split
      · exact ⟨_, rfl⟩
      · split <;> exact ⟨_, rfl⟩

/-- C10: each provider client first builds a GET request without body for
its fixed URL template with the postal code inserted unchanged, and the only
request it ever hands to the HTTP client is that one: BrasilAPI under
`https://brasilapi.com.br/api/cep/v1/` followed by the code, ViaCEP under
`http://viacep.com.br/ws/` followed by the code and `/json/`. -/
theorem C10_provider_request_urls (net : World) (cep : String) (ch : Nat) :
    (∃ rest, getAddressFromBrasilAPI net cep ch =
      Event.newRequest oneSecond "GET" ("https://brasilapi.com.br/api/cep/v1/" ++ cep) none
        :: rest) ∧
    (attempts (getAddressFromBrasilAPI net cep ch) = [] ∨
     attempts (getAddressFromBrasilAPI net cep ch) =
      [{ timeout := oneSecond, method := "GET",
         url := "https://brasilapi.com.br/api/cep/v1/" ++ cep, body := none }]) ∧
    (∃ rest, getAddressFromViaCEP net cep ch =
      Event.newRequest oneSecond "GET" ("http://viacep.com.br/ws/" ++ cep ++ "/json/") none
        :: rest) ∧
    (attempts (getAddressFromViaCEP net cep ch) = [] ∨
     attempts (getAddressFromViaCEP net cep ch) =
      [{ timeout := oneSecond, method := "GET",
         url := "http://viacep.com.br/ws/" ++ cep ++ "/json/", body := none }]) :=
  ⟨brasil_head net cep ch, brasil_attempts_shape net cep ch,
   viaCEP_head net cep ch, viaCEP_attempts_shape net cep ch⟩

theorem brasil_sends_ok (net : World) (cep : String) (ch : Nat) (req : Request)
    (resp : Response) (body : String) (addr : BrasilApiResponse)
    (h1 : NewRequestWithContext net oneSecond MethodGet
      ("https://brasilapi.com.br/api/cep/v1/" ++ cep) none = Except.ok req)
    (h2 : net.clientDo req = Except.ok resp) (h3 : resp.Body = Except.ok body)
    (h4 : net.unmarshalBrasilApi body = Except.ok addr) :
    sends (getAddressFromBrasilAPI net cep ch) = [(ch, addr.ToString)] := by
  rw [← brasilURL_eq] at h1
  rw [brasil_ok net cep ch req resp body addr h1 h2 h3 h4]
  rfl

theorem viaCEP_sends_ok (net : World) (cep : String) (ch : Nat) (req : Request)
    (resp : Response) (body : String) (addr : ViaCEPResponse)
    (h1 : NewRequestWithContext net oneSecond MethodGet
      ("http://viacep.com.br/ws/" ++ cep ++ "/json/") none = Except.ok req)
    (h2 : net.clientDo req = Except.ok resp) (h3 : resp.Body = Except.ok body)
    (h4 : net.unmarshalViaCEP body = Except.ok addr) :
    sends (getAddressFromViaCEP net cep ch) = [(ch, addr.ToString)] := by
  rw [← viaCEPURL_eq] at h1
  rw [viaCEP_ok net cep ch req resp body addr h1 h2 h3 h4]
  rfl

/-- C2: each provider client sends exactly one value, the `ToString` of the
decoded response, on its channel when building the request, the HTTP call,
reading the body and decoding all succeed; it sends nothing when building
the request fails, when the HTTP call fails, when reading the body fails, or
when decoding fails; and in every case it hands at most one request to the
HTTP client. -/
theorem C2_client_publishes_once_or_never (net : World) (cep : String) (ch : Nat) :
    ((∀ req resp body addr,
        NewRequestWithContext net oneSecond MethodGet
          ("https://brasilapi.com.br/api/cep/v1/" ++ cep) none = Except.ok req →
        net.clientDo req = Except.ok resp → resp.Body = Except.ok body →
        net.unmarshalBrasilApi body = Except.ok addr →
        sends (getAddressFromBrasilAPI net cep ch) = [(ch, addr.ToString)]) ∧
     (∀ err,
        NewRequestWithContext net oneSecond MethodGet
          ("https://brasilapi.com.br/api/cep/v1/" ++ cep) none = Except.error err →
        sends (getAddressFromBrasilAPI net cep ch) = []) ∧
     (∀ req err,
        NewRequestWithContext net oneSecond MethodGet
          ("https://brasilapi.com.br/api/cep/v1/" ++ cep) none = Except.ok req →
        net.clientDo req = Except.error err →
        sends (getAddressFromBrasilAPI net cep ch) = []) ∧
     (∀ req resp err,
        NewRequestWithContext net oneSecond MethodGet
          ("https://brasilapi.com.br/api/cep/v1/" ++ cep) none = Except.ok req →
        net.clientDo req = Except.ok resp → resp.Body = Except.error err →
        sends (getAddressFromBrasilAPI net cep ch) = []) ∧
     (∀ req resp body err,
        NewRequestWithContext net oneSecond MethodGet
          ("https://brasilapi.com.br/api/cep/v1/" ++ cep) none = Except.ok req →
        net.clientDo req = Except.ok resp → resp.Body = Except.ok body →
        net.unmarshalBrasilApi body = Except.error err →
        sends (getAddressFromBrasilAPI net cep ch) = []) ∧
     (attempts (getAddressFromBrasilAPI net cep ch)).length ≤ 1) ∧
    ((∀ req resp body addr,
        NewRequestWithContext net oneSecond MethodGet
          ("http://viacep.com.br/ws/" ++ cep ++ "/json/") none = Except.ok req →
        net.clientDo req = Except.ok resp → resp.Body = Except.ok body →
        net.unmarshalViaCEP body = Except.ok addr →
        sends (getAddressFromViaCEP net cep ch) = [(ch, addr.ToString)]) ∧
     (∀ err,
        NewRequestWithContext net oneSecond MethodGet
          ("http://viacep.com.br/ws/" ++ cep ++ "/json/") none = Except.error err →
        sends (getAddressFromViaCEP net cep ch) = []) ∧
     (∀ req err,
        NewRequestWithContext net oneSecond MethodGet
          ("http://viacep.com.br/ws/" ++ cep ++ "/json/") none = Except.ok req →
        net.clientDo req = Except.error err →
        sends (getAddressFromViaCEP net cep ch) = []) ∧
     (∀ req resp err,
        NewRequestWithContext net oneSecond MethodGet
          ("http://viacep.com.br/ws/" ++ cep ++ "/json/") none = Except.ok req →
        net.clientDo req = Except.ok resp → resp.Body = Except.error err →
        sends (getAddressFromViaCEP net cep ch) = []) ∧
     (∀ req resp body err,
        NewRequestWithContext net oneSecond MethodGet
          ("http://viacep.com.br/ws/" ++ cep ++ "/json/") none = Except.ok req →
        net.clientDo req = Except.ok resp → resp.Body = Except.ok body →
        net.unmarshalViaCEP body = Except.error err →
        sends (getAddressFromViaCEP net cep ch) = []) ∧
     (attempts (getAddressFromViaCEP net cep ch)).length ≤ 1) := by
  refine ⟨⟨?_, ?_, ?_, ?_, ?_, brasil_attempts net cep ch⟩,
    ⟨?_, ?_, ?_, ?_, ?_, viaCEP_attempts net cep ch⟩⟩
  · intro req resp body addr h1 h2 h3 h4
    exact brasil_sends_ok net cep ch req resp body addr h1 h2 h3 h4
  · intro err h1
    rw [← brasilURL_eq] at h1
    simp only [getAddressFromBrasilAPI, h1, sends]
  · intro req err h1 h2
    rw [← brasilURL_eq] at h1
    simp only [getAddressFromBrasilAPI, h1, h2, sends]
  · intro req resp err h1 h2 h3
    rw [← brasilURL_eq] at h1
    simp only [getAddressFromBrasilAPI, h1, h2, h3, sends]
  · intro req resp body err h1 h2 h3 h4
    rw [← brasilURL_eq] at h1
    simp only [getAddressFromBrasilAPI, h1, h2, h3, h4, sends]
  · intro req resp body addr h1 h2 h3 h4
    exact viaCEP_sends_ok net cep ch req resp body addr h1 h2 h3 h4
  · intro err h1
    rw [← viaCEPURL_eq] at h1
    simp only [getAddressFromViaCEP, h1, sends]
  · intro req err h1 h2
    rw [← viaCEPURL_eq] at h1
    simp only [getAddressFromViaCEP, h1, h2, sends]
  · intro req resp err h1 h2 h3
    rw [← viaCEPURL_eq] at h1
    simp only [getAddressFromViaCEP, h1, h2, h3, sends]
  · intro req resp body err h1 h2 h3 h4
    rw [← viaCEPURL_eq] at h1
    simp only [getAddressFromViaCEP, h1, h2, h3, h4, sends]

/-- C2, at a concrete input: in the sample world the BrasilAPI client sends
the one normalized line on channel 0, and in the world where every HTTP call
runs into its deadline the ViaCEP client sends nothing. -/
theorem C2_client_publishes_once_or_never_witness :
    sends (getAddressFromBrasilAPI sampleWorld "01310-100" 0) =
      [(0, "Fonte BrasilAPI >>> CEP:01310-100, Cidade:São Paulo-SP, Logradouro:Av. Paulista - Bairro:Bela Vista")] ∧
    sends (getAddressFromViaCEP timeoutWorld "01310-100" 0) = [] :=
  ⟨(C2_client_publishes_once_or_never sampleWorld "01310-100" 0).1.1
      { timeout := oneSecond, method := MethodGet,
        url := "https://brasilapi.com.br/api/cep/v1/" ++ "01310-100", body := none }
      { StatusCode := 200, Body := Except.ok "payload" } "payload"
      { CEP := "01310-100", State := "SP", City := "São Paulo", Neighborhood := "Bela Vista",
        Street := "Av. Paulista", Service := "open-cep" }
      rfl rfl rfl rfl,
   (C2_client_publishes_once_or_never timeoutWorld "01310-100" 0).2.2.2.1
      { timeout := oneSecond, method := MethodGet,
        url := "http://viacep.com.br/ws/" ++ "01310-100" ++ "/json/", body := none }
      "context deadline exceeded" rfl rfl⟩

/-- C7 does not hold as stated: when a provider answers an unknown postal code
with the JSON object `{}`, decoding succeeds with every field empty, and each
client publishes a line whose postal code, city, region and street are all
empty. -/
theorem C7_published_fields_can_be_empty :
    sends (getAddressFromViaCEP unknownCepWorld "00000-000" 0) =
      [(0, "Fonte ViaCEP >>> CEP:, Cidade:-, Logradouro: - Bairro:")] ∧
    sends (getAddressFromBrasilAPI unknownCepWorld "00000-000" 0) =
      [(0, "Fonte BrasilAPI >>> CEP:, Cidade:-, Logradouro: - Bairro:")] ∧
    ¬ (∀ (net : World) (cep : String) (req : Request) (resp : Response) (body : String)
        (addr : ViaCEPResponse),
        NewRequestWithContext net oneSecond MethodGet
          ("http://viacep.com.br/ws/" ++ cep ++ "/json/") none = Except.ok req →
        net.clientDo req = Except.ok resp → resp.Body = Except.ok body →
        net.unmarshalViaCEP body = Except.ok addr →
        addr.CEP ≠ "" ∧ addr.Localidade ≠ "" ∧ addr.UF ≠ "" ∧ addr.Logradouro ≠ "") ∧
    ¬ (∀ (net : World) (cep : String) (req : Request) (resp : Response) (body : String)
        (addr : BrasilApiResponse),
        NewRequestWithContext net oneSecond MethodGet
          ("https://brasilapi.com.br/api/cep/v1/" ++ cep) none = Except.ok req →
        net.clientDo req = Except.ok resp → resp.Body = Except.ok body →
        net.unmarshalBrasilApi body = Except.ok addr →
        addr.CEP ≠ "" ∧ addr.City ≠ "" ∧ addr.State ≠ "" ∧ addr.Street ≠ "") := by
  refine ⟨by decide, by decide, ?_, ?_⟩
  · intro h
    have := h unknownCepWorld "00000-000"
      { timeout := oneSecond, method := MethodGet,
        url := "http://viacep.com.br/ws/" ++ "00000-000" ++ "/json/", body := none }
      { StatusCode := 404, Body := Except.ok "\x7b\x7d" } "\x7b\x7d"
      { CEP := "", Logradouro := "", Complemento := "", Bairro := "", Localidade := "",
        UF := "", DDD := "" } rfl rfl rfl rfl
    exact this.1 rfl
  · intro h
    have := h unknownCepWorld "00000-000"
      { timeout := oneSecond, method := MethodGet,
        url := "https://brasilapi.com.br/api/cep/v1/" ++ "00000-000", body := none }
      { StatusCode := 404, Body := Except.ok "\x7b\x7d" } "\x7b\x7d"
      { CEP := "", State := "", City := "", Neighborhood := "", Street := "", Service := "" }
      rfl rfl rfl rfl
    exact this.1 rfl

/-- C7, amended: a provider client publishes exactly when building the
request, the HTTP call, reading the body and decoding all succeed, and what
it publishes is the normalized line built from the response that
`json.Unmarshal` decoded from the very body read off that HTTP response. The
postal code, city, region and street in the line are the decoded ones, empty
or not: every decoded response is published, whatever its fields hold, and
nothing else ever is. -/
theorem C7_published_fields_as_decoded (net : World) (cep : String) (ch : Nat) :
    (∀ c v, (c, v) ∈ sends (getAddressFromBrasilAPI net cep ch) →
      ∃ req resp body addr,
        NewRequestWithContext net oneSecond MethodGet
          ("https://brasilapi.com.br/api/cep/v1/" ++ cep) none = Except.ok req ∧
        net.clientDo req = Except.ok resp ∧ resp.Body = Except.ok body ∧
        net.unmarshalBrasilApi body = Except.ok addr ∧ c = ch ∧
        v = "Fonte BrasilAPI >>> CEP:" ++ addr.CEP ++ ", Cidade:" ++ addr.City ++ "-" ++ addr.State
          ++ ", Logradouro:" ++ addr.Street ++ " - Bairro:" ++ addr.Neighborhood) ∧
    (∀ req resp body addr,
      NewRequestWithContext net oneSecond MethodGet
        ("https://brasilapi.com.br/api/cep/v1/" ++ cep) none = Except.ok req →
      net.clientDo req = Except.ok resp → resp.Body = Except.ok body →
      net.unmarshalBrasilApi body = Except.ok addr →
      sends (getAddressFromBrasilAPI net cep ch) =
        [(ch, "Fonte BrasilAPI >>> CEP:" ++ addr.CEP ++ ", Cidade:" ++ addr.City ++ "-" ++ addr.State
          ++ ", Logradouro:" ++ addr.Street ++ " - Bairro:" ++ addr.Neighborhood)]) ∧
    (∀ c v, (c, v) ∈ sends (getAddressFromViaCEP net cep ch) →
      ∃ req resp body addr,
        NewRequestWithContext net oneSecond MethodGet
          ("http://viacep.com.br/ws/" ++ cep ++ "/json/") none = Except.ok req ∧
        net.clientDo req = Except.ok resp ∧ resp.Body = Except.ok body ∧
        net.unmarshalViaCEP body = Except.ok addr ∧ c = ch ∧
        v = "Fonte ViaCEP >>> CEP:" ++ addr.CEP ++ ", Cidade:" ++ addr.Localidade ++ "-" ++ addr.UF
          ++ ", Logradouro:" ++ addr.Logradouro ++ " - Bairro:" ++ addr.Bairro) ∧
    (∀ req resp body addr,
      NewRequestWithContext net oneSecond MethodGet
        ("http://viacep.com.br/ws/" ++ cep ++ "/json/") none = Except.ok req →
      net.clientDo req = Except.ok resp → resp.Body = Except.ok body →
      net.unmarshalViaCEP body = Except.ok addr →
      sends (getAddressFromViaCEP net cep ch) =
        [(ch, "Fonte ViaCEP >>> CEP:" ++ addr.CEP ++ ", Cidade:" ++ addr.Localidade ++ "-" ++ addr.UF
          ++ ", Logradouro:" ++ addr.Logradouro ++ " - Bairro:" ++ addr.Bairro)]) := by
  refine ⟨?_, ?_, ?_, ?_⟩
  · intro c v h
    obtain ⟨req, resp, body, addr, h1, h2, h3, h4, hc, hv⟩ := brasil_mem net cep ch c v h
    rw [brasilURL_eq] at h1
    exact ⟨req, resp, body, addr, h1, h2, h3, h4, hc, by rw [hv, brasilToString_eq]⟩
  · intro req resp body addr h1 h2 h3 h4
    rw [brasil_sends_ok net cep ch req resp body addr h1 h2 h3 h4, brasilToString_eq]
  · intro c v h
    obtain ⟨req, resp, body, addr, h1, h2, h3, h4, hc, hv⟩ := viaCEP_mem net cep ch c v h
    rw [viaCEPURL_eq] at h1
    exact ⟨req, resp, body, addr, h1, h2, h3, h4, hc, by rw [hv, viaCEPToString_eq]⟩
  · intro req resp body addr h1 h2 h3 h4
    rw [viaCEP_sends_ok net cep ch req resp body addr h1 h2 h3 h4, viaCEPToString_eq]

/-- C7 amended, at concrete inputs: the line the ViaCEP client publishes in
the sample world comes from a response decoded from the body that was read,
and in the world that answers `{}` the BrasilAPI client publishes the decoded
response although all its fields are empty. -/
theorem C7_published_fields_as_decoded_witness :
    (∃ req resp body addr,
      NewRequestWithContext sampleWorld oneSecond MethodGet
        ("http://viacep.com.br/ws/" ++ "01310-100" ++ "/json/") none = Except.ok req ∧
      sampleWorld.clientDo req = Except.ok resp ∧ resp.Body = Except.ok body ∧
      sampleWorld.unmarshalViaCEP body = Except.ok addr ∧ 0 = 0 ∧
      "Fonte ViaCEP >>> CEP:01310-100, Cidade:São Paulo-SP, Logradouro:Avenida Paulista - Bairro:Bela Vista" =
        "Fonte ViaCEP >>> CEP:" ++ addr.CEP ++ ", Cidade:" ++ addr.Localidade ++ "-" ++ addr.UF
          ++ ", Logradouro:" ++ addr.Logradouro ++ " - Bairro:" ++ addr.Bairro) ∧
    sends (getAddressFromBrasilAPI unknownCepWorld "00000-000" 0) =
      [(0, "Fonte BrasilAPI >>> CEP:" ++ "" ++ ", Cidade:" ++ "" ++ "-" ++ ""
        ++ ", Logradouro:" ++ "" ++ " - Bairro:" ++ "")] :=
  ⟨(C7_published_fields_as_decoded sampleWorld "01310-100" 0).2.2.1 0
      "Fonte ViaCEP >>> CEP:01310-100, Cidade:São Paulo-SP, Logradouro:Avenida Paulista - Bairro:Bela Vista"
      (by decide),
   (C7_published_fields_as_decoded unknownCepWorld "00000-000" 0).2.1
      { timeout := oneSecond, method := MethodGet,
        url := "https://brasilapi.com.br/api/cep/v1/" ++ "00000-000", body := none }
      { StatusCode := 404, Body := Except.ok "\x7b\x7d" } "\x7b\x7d"
      { CEP := "", State := "", City := "", Neighborhood := "", Street := "", Service := "" }
      rfl rfl rfl rfl⟩

/-! ## The handler -/

theorem run_handler (net : World) (vars : Vars) :
    run net vars Sys.init [Action.handler] = some (handlerEntry vars Sys.init) := rfl

theorem handlerEntry_none (vars : Vars) (h : vars.lookup "cep" = none) :
    handlerEntry vars Sys.init =
      { w := badRequestWriter, pc := HandlerPc.returned, chans := 0, goroutines := [],
        received := [],
        log := ["Request received on server...", "Request finished..."] } := by
  simp only [handlerEntry, h]
  rfl

theorem handlerEntry_some (vars : Vars) (cep : String) (h : vars.lookup "cep" = some cep) :
    handlerEntry vars Sys.init =
      { w := Sys.init.w, pc := HandlerPc.recv 0, chans := 1,
        goroutines :=
          [{ call := Call.viaCEP cep 0, started := false, done := [], todo := [] },
           { call := Call.brasilAPI cep 0, started := false, done := [], todo := [] }],
        received := [],
        log := ["Request received on server..."] } := by
  simp only [handlerEntry, h]
  rfl

/-- C3: when the route variables have no `cep`, the handler answers 400 with
an empty body and returns; in no reachable state has a channel been made or
a goroutine been started, no provider can run, and the status is never other
than 400. -/
theorem C3_missing_cep_is_bad_request (net : World) (vars : Vars)
    (h : vars.lookup "cep" = none) :
    (∃ s, run net vars Sys.init [Action.handler] = some s ∧ s.pc = HandlerPc.returned ∧
      s.w.status = some 400 ∧ s.w.body = "") ∧
    (∀ acts s, run net vars Sys.init acts = some s →
      (s.w.status = none ∨ s.w.status = some 400) ∧ s.w.body = "" ∧ s.chans = 0 ∧
      s.goroutines = [] ∧ s.received = [] ∧
      ∀ i, step net vars s (Action.provider i) = none) := by
  constructor
  · refine ⟨_, run_handler net vars, ?_⟩
    rw [handlerEntry_none vars h]
    exact ⟨rfl, rfl, rfl⟩
  · intro acts s hrun
    have hinv := Inv_reachable net vars acts s hrun
    cases hpc : s.pc with
    | entry =>
      simp only [Inv, hpc] at hinv
      subst hinv
      refine ⟨Or.inl rfl, rfl, rfl, rfl, rfl, ?_⟩
      intro i
      simp [step, Sys.init]
    | recv ch =>
      simp only [Inv, hpc] at hinv
      obtain ⟨cep, _, _, hc, _⟩ := hinv
      rw [h] at hc
      simp at hc
    | returned =>
      simp only [Inv, hpc] at hinv
      rcases hinv with ⟨_, hw, hg, hn, hr⟩ | ⟨cep, _, _, _, hc, _⟩
      · refine ⟨Or.inr ?_, ?_, hn, hg, hr, ?_⟩
        · rw [hw]; rfl
        · rw [hw]; rfl
        · intro i
          simp [step, hg]
      · rw [h] at hc
        simp at hc

/-- C3, at a concrete input: route variables that bind only `id`. -/
theorem C3_missing_cep_is_bad_request_witness :
    ∃ s, run sampleWorld [("id", "01310-100")] Sys.init [Action.handler] = some s ∧
      s.pc = HandlerPc.returned ∧ s.w.status = some 400 ∧ s.w.body = "" :=
  (C3_missing_cep_is_bad_request sampleWorld [("id", "01310-100")] (by decide)).1

/-- C9: whatever string is bound to `cep`, the empty string included, the
handler makes one channel, starts the ViaCEP client and the BrasilAPI client
on that very string and that channel, and waits; both clients then run on
that string and channel; and no reachable state carries status 400 or a
second channel. -/
theorem C9_any_cep_starts_both_clients (net : World) (vars : Vars) (cep : String)
    (h : vars.lookup "cep" = some cep) :
    (∃ s, run net vars Sys.init [Action.handler] = some s ∧ s.pc = HandlerPc.recv 0 ∧
      s.chans = 1 ∧ s.w.status = none ∧
      s.goroutines.map Goroutine.call = [Call.viaCEP cep 0, Call.brasilAPI cep 0]) ∧
    (∃ s, run net vars Sys.init [Action.handler, Action.provider 0, Action.provider 1] = some s ∧
      s.goroutines.map (fun g => (g.started, g.done ++ g.todo)) =
        [(true, getAddressFromViaCEP net cep 0), (true, getAddressFromBrasilAPI net cep 0)]) ∧
    (∀ acts s, run net vars Sys.init acts = some s →
      s.w.status ≠ some 400 ∧ s.chans ≤ 1 ∧
      (s.pc ≠ HandlerPc.entry →
        s.chans = 1 ∧
        s.goroutines.map Goroutine.call = [Call.viaCEP cep 0, Call.brasilAPI cep 0])) := by
  refine ⟨?_, ?_, ?_⟩
  · refine ⟨_, run_handler net vars, ?_⟩
    rw [handlerEntry_some vars cep h]
    exact ⟨rfl, rfl, rfl, rfl⟩
  · simp only [run, step, Sys.init]
    simp only [handlerEntry, h]
    simp [Call.run, advance_append]
  · intro acts s hrun
    have hinv := Inv_reachable net vars acts s hrun
    cases hpc : s.pc with
    | entry =>
      simp only [Inv, hpc] at hinv
      subst hinv
      exact ⟨by simp [Sys.init], by simp [Sys.init], fun hne => absurd rfl hne⟩
    | recv ch =>
      simp only [Inv, hpc] at hinv
      obtain ⟨cep1, g0, g1, hc, _, hn, hw, _, hg, hc0, hc1, _, _⟩ := hinv
      rw [h] at hc
      simp only [Option.some.injEq] at hc
      subst hc
      refine ⟨by rw [hw]; simp [Sys.init], by omega, fun _ => ⟨hn, ?_⟩⟩
      rw [hg]
      simp [hc0, hc1]
    | returned =>
      simp only [Inv, hpc] at hinv
      rcases hinv with ⟨hc, _⟩ | ⟨cep1, v, g0, g1, hc, hw, _, hn, hg, hc0, hc1, _⟩
      · rw [h] at hc
        simp at hc
      · rw [h] at hc
        simp only [Option.some.injEq] at hc
        subst hc
        refine ⟨by rw [hw]; simp [okWriter, StatusOK], by omega, fun _ => ⟨hn, ?_⟩⟩
        rw [hg]
        simp [hc0, hc1]

/-- C9, at a concrete input: the empty string bound to `cep`. -/
theorem C9_any_cep_starts_both_clients_witness :
    ∃ s, run sampleWorld [("cep", "")] Sys.init [Action.handler] = some s ∧
      s.pc = HandlerPc.recv 0 ∧ s.chans = 1 ∧ s.w.status = none ∧
      s.goroutines.map Goroutine.call = [Call.viaCEP "" 0, Call.brasilAPI "" 0] :=
  (C9_any_cep_starts_both_clients sampleWorld [("cep", "")] "" (by decide)).1

/-- C4: in every reachable state the status is unwritten, 200 or 400; a
written status comes with the header `Content-Type: application/json`; under
status 200 the body is exactly the one value the handler received from the
channel; under status 400 nothing was received and the body is empty; and
the handler never receives more than once. -/
theorem C4_status_header_and_body (net : World) (vars : Vars) (acts : List Action) (s : Sys)
    (h : run net vars Sys.init acts = some s) :
    (s.w.status = none ∨ s.w.status = some 200 ∨ s.w.status = some 400) ∧
    (s.w.status ≠ none → s.w.header.lookup "Content-Type" = some "application/json") ∧
    (s.w.status = none → s.w.body = "" ∧ s.received = []) ∧
    (s.w.status = some 200 → s.received = [s.w.body]) ∧
    (s.w.status = some 400 → s.received = [] ∧ s.w.body = "") ∧
    s.received.length ≤ 1 := by
  have hinv := Inv_reachable net vars acts s h
  cases hpc : s.pc with
  | entry =>
    simp only [Inv, hpc] at hinv
    subst hinv
    simp [Sys.init]
  | recv ch =>
    simp only [Inv, hpc] at hinv
    obtain ⟨_, _, _, _, _, _, hw, hr, _⟩ := hinv
    rw [hw, hr]
    simp [Sys.init]
  | returned =>
    simp only [Inv, hpc] at hinv
    rcases hinv with ⟨_, hw, _, _, hr⟩ | ⟨_, v, _, _, _, hw, hr, _⟩
    · rw [hw, hr]
      simp [badRequestWriter, StatusBadRequest]
    · rw [hw, hr]
      simp [okWriter, StatusOK]

/-- C4, at a concrete input: the state in which the ViaCEP client has won. -/
theorem C4_status_header_and_body_witness :
    viaCEPWins.w.status = some 200 ∧
    viaCEPWins.w.header.lookup "Content-Type" = some "application/json" ∧
    viaCEPWins.received = [viaCEPWins.w.body] :=
  have h := C4_status_header_and_body sampleWorld sampleVars
    [Action.handler, Action.provider 0, Action.provider 1, Action.rendezvous 0] viaCEPWins
    (by rfl)
  ⟨by decide, h.2.1 (by decide), h.2.2.2.1 (by decide)⟩

theorem run_viaCEP_wins (net : World) (vars : Vars) (cep v : String)
    (h : vars.lookup "cep" = some cep) (hv : (0, v) ∈ sends (getAddressFromViaCEP net cep 0)) :
    ∃ s, run net vars Sys.init [Action.handler, Action.provider 0, Action.rendezvous 0] = some s ∧
      s.w = okWriter v ∧ s.received = [v] ∧ s.pc = HandlerPc.returned := by
  obtain ⟨req, resp, body, addr, h1, h2, h3, h4, _, hv⟩ := viaCEP_mem net cep 0 0 v hv
  have hev := viaCEP_ok net cep 0 req resp body addr h1 h2 h3 h4
  subst hv
  simp only [run, step, Sys.init]
  simp only [handlerEntry, h]
  simp [Call.run, hev, advance, handlerResume, okWriter, ResponseWriter.HeaderSet,
    ResponseWriter.WriteHeader, ResponseWriter.Write]

theorem run_brasil_wins (net : World) (vars : Vars) (cep v : String)
    (h : vars.lookup "cep" = some cep)
    (hv : (0, v) ∈ sends (getAddressFromBrasilAPI net cep 0)) :
    ∃ s, run net vars Sys.init [Action.handler, Action.provider 1, Action.rendezvous 1] = some s ∧
      s.w = okWriter v ∧ s.received = [v] ∧ s.pc = HandlerPc.returned := by
  obtain ⟨req, resp, body, addr, h1, h2, h3, h4, _, hv⟩ := brasil_mem net cep 0 0 v hv
  have hev := brasil_ok net cep 0 req resp body addr h1 h2 h3 h4
  subst hv
  simp only [run, step, Sys.init]
  simp only [handlerEntry, h]
  simp [Call.run, hev, advance, handlerResume, okWriter, ResponseWriter.HeaderSet,
    ResponseWriter.WriteHeader, ResponseWriter.Write]

theorem exists_mem_of_sends_ne_nil {es : List Event} (h : sends es ≠ []) :
    ∃ c v, (c, v) ∈ sends es := by
  cases hs : sends es with
  | nil => exact absurd hs h
  | cons p t => exact ⟨p.1, p.2, List.mem_cons_self _ _⟩

theorem answered_body_mem (net : World) (vars : Vars) (cep : String)
    (h : vars.lookup "cep" = some cep) (s : Sys) (hinv : Inv net vars s)
    (hst : s.w.status ≠ none) :
    s.w.status = some 200 ∧
    ((0, s.w.body) ∈ sends (getAddressFromViaCEP net cep 0) ∨
     (0, s.w.body) ∈ sends (getAddressFromBrasilAPI net cep 0)) := by
  cases hpc : s.pc with
  | entry =>
    simp only [Inv, hpc] at hinv
    subst hinv
    exact absurd rfl hst
  | recv ch =>
    simp only [Inv, hpc] at hinv
    obtain ⟨_, _, _, _, _, _, hw, _⟩ := hinv
    rw [hw] at hst
    exact absurd rfl hst
  | returned =>
    simp only [Inv, hpc] at hinv
    rcases hinv with ⟨hc, _⟩ | ⟨cep1, v, g0, g1, hc, hw, _, _, _, hc0, hc1, hm⟩
    · rw [h] at hc
      simp at hc
    · rw [h] at hc
      simp only [Option.some.injEq] at hc
      subst hc
      rw [hc0, hc1] at hm
      rw [hw]
      exact ⟨rfl, hm⟩

/-- C1: with `cep` present and at least one provider client publishing on
the handler's channel, some schedule makes the handler answer; whenever the
handler has answered, the status is 200 and the body is a value one of the
two clients published for this request; and each published value is the
body under some schedule, so which client wins is left to the scheduler. -/
theorem C1_answer_is_a_published_value (net : World) (vars : Vars) (cep : String)
    (h : vars.lookup "cep" = some cep)
    (hpub : sends (getAddressFromViaCEP net cep 0) ≠ [] ∨
      sends (getAddressFromBrasilAPI net cep 0) ≠ []) :
    (∃ acts s, run net vars Sys.init acts = some s ∧ s.w.status = some 200) ∧
    (∀ acts s, run net vars Sys.init acts = some s → s.w.status ≠ none →
      s.w.status = some 200 ∧
      ((0, s.w.body) ∈ sends (getAddressFromViaCEP net cep 0) ∨
       (0, s.w.body) ∈ sends (getAddressFromBrasilAPI net cep 0))) ∧
    (∀ v, (0, v) ∈ sends (getAddressFromViaCEP net cep 0) →
      ∃ s, run net vars Sys.init [Action.handler, Action.provider 0, Action.rendezvous 0] = some s ∧
        s.w.status = some 200 ∧ s.w.body = v) ∧
    (∀ v, (0, v) ∈ sends (getAddressFromBrasilAPI net cep 0) →
      ∃ s, run net vars Sys.init [Action.handler, Action.provider 1, Action.rendezvous 1] = some s ∧
        s.w.status = some 200 ∧ s.w.body = v) := by
  have hvia : ∀ v, (0, v) ∈ sends (getAddressFromViaCEP net cep 0) →
      ∃ s, run net vars Sys.init [Action.handler, Action.provider 0, Action.rendezvous 0] = some s ∧
        s.w.status = some 200 ∧ s.w.body = v := by
    intro v hv
    obtain ⟨s, hrun, hw, _, _⟩ := run_viaCEP_wins net vars cep v h hv
    exact ⟨s, hrun, by rw [hw]; rfl, by rw [hw]; rfl⟩
  have hbra : ∀ v, (0, v) ∈ sends (getAddressFromBrasilAPI net cep 0) →
      ∃ s, run net vars Sys.init [Action.handler, Action.provider 1, Action.rendezvous 1] = some s ∧
        s.w.status = some 200 ∧ s.w.body = v := by
    intro v hv
    obtain ⟨s, hrun, hw, _, _⟩ := run_brasil_wins net vars cep v h hv
    exact ⟨s, hrun, by rw [hw]; rfl, by rw [hw]; rfl⟩
  refine ⟨?_, ?_, hvia, hbra⟩
  · rcases hpub with hp | hp
    · obtain ⟨c, v, hm⟩ := exists_mem_of_sends_ne_nil hp
      obtain ⟨_, _, _, _, _, _, _, _, hc, _⟩ := viaCEP_mem net cep 0 c v hm
      subst hc
      obtain ⟨s, hrun, hs, _⟩ := hvia v hm
      exact ⟨_, s, hrun, hs⟩
    · obtain ⟨c, v, hm⟩ := exists_mem_of_sends_ne_nil hp
      obtain ⟨_, _, _, _, _, _, _, _, hc, _⟩ := brasil_mem net cep 0 c v hm
      subst hc
      obtain ⟨s, hrun, hs, _⟩ := hbra v hm
      exact ⟨_, s, hrun, hs⟩
  · intro acts s hrun hst
    exact answered_body_mem net vars cep h s (Inv_reachable net vars acts s hrun) hst

/-- C1, at a concrete input: in the sample world both clients publish, the
schedule in which ViaCEP is received first answers with the ViaCEP line, and
the schedule in which BrasilAPI is received first answers with the BrasilAPI
line. -/
theorem C1_answer_is_a_published_value_witness :
    (∃ s, run sampleWorld sampleVars Sys.init
        [Action.handler, Action.provider 0, Action.rendezvous 0] = some s ∧
      s.w.status = some 200 ∧
      s.w.body = "Fonte ViaCEP >>> CEP:01310-100, Cidade:São Paulo-SP, Logradouro:Avenida Paulista - Bairro:Bela Vista") ∧
    (∃ s, run sampleWorld sampleVars Sys.init
        [Action.handler, Action.provider 1, Action.rendezvous 1] = some s ∧
      s.w.status = some 200 ∧
      s.w.body = "Fonte BrasilAPI >>> CEP:01310-100, Cidade:São Paulo-SP, Logradouro:Av. Paulista - Bairro:Bela Vista") :=
  have h := C1_answer_is_a_published_value sampleWorld sampleVars "01310-100" (by decide)
    (Or.inl (by decide))
  ⟨h.2.2.1 _ (by decide), h.2.2.2 _ (by decide)⟩

theorem rendezvous_enabled (net : World) (vars : Vars) (s s1 : Sys) (i : Nat)
    (h : step net vars s (Action.rendezvous i) = some s1) :
    ∃ ch g v rest, s.pc = HandlerPc.recv ch ∧ s.goroutines[i]? = some g ∧
      g.todo = Event.send ch v :: rest := by
  cases hpc : s.pc with
  | entry => simp [step, hpc] at h
  | returned => simp [step, hpc] at h
  | recv ch =>
    cases hg : s.goroutines[i]? with
    | none => simp [step, hpc, hg] at h
    | some g =>
      simp only [step, hpc, hg] at h
      split at h
      · rename_i ch1 v rest htodo
        split at h
        · rename_i hch1
          subst hch1
          exact ⟨ch1, g, v, rest, rfl, rfl, htodo⟩
        · simp at h
      · simp at h

theorem rendezvous_disabled (net : World) (vars : Vars) (cep : String)
    (h : vars.lookup "cep" = some cep)
    (hv : sends (getAddressFromViaCEP net cep 0) = [])
    (hb : sends (getAddressFromBrasilAPI net cep 0) = [])
    (s : Sys) (hinv : Inv net vars s) (i : Nat) :
    step net vars s (Action.rendezvous i) = none := by
  cases hstep : step net vars s (Action.rendezvous i) with
  | none => rfl
  | some s1 =>
    exfalso
    obtain ⟨ch, g, v, rest, hpc, hg, htodo⟩ := rendezvous_enabled net vars s s1 i hstep
    simp only [Inv, hpc] at hinv
    obtain ⟨cep1, g0, g1, hc, _, _, _, _, hgs, hc0, hc1, hi0, hi1⟩ := hinv
    rw [h] at hc
    simp only [Option.some.injEq] at hc
    subst hc
    rw [hgs] at hg
    rcases i with _ | _ | i
    · simp only [List.getElem?_cons_zero, Option.some.injEq] at hg
      subst hg
      have hm := GInv_send_mem net g0 ch v rest hi0 htodo
      rw [hc0] at hm
      simp only [Call.run, hv] at hm
      simp at hm
    · simp only [List.getElem?_cons_succ, List.getElem?_cons_zero, Option.some.injEq] at hg
      subst hg
      have hm := GInv_send_mem net g1 ch v rest hi1 htodo
      rw [hc1] at hm
      simp only [Call.run, hb] at hm
      simp at hm
    · simp at hg

/-- C8: with `cep` present and neither provider client sending on the
channel, no reachable state has a status, a header or a body written, the
handler has never returned or received, and no rendezvous is enabled; once
both clients have finished, the handler sits at its receive and no
transition at all is enabled. -/
theorem C8_total_failure_never_answers (net : World) (vars : Vars) (cep : String)
    (h : vars.lookup "cep" = some cep)
    (hv : sends (getAddressFromViaCEP net cep 0) = [])
    (hb : sends (getAddressFromBrasilAPI net cep 0) = []) :
    (∀ acts s, run net vars Sys.init acts = some s →
      s.w = { header := [], status := none, body := "" } ∧ s.pc ≠ HandlerPc.returned ∧
      s.received = [] ∧ ∀ i, step net vars s (Action.rendezvous i) = none) ∧
    (∃ s, run net vars Sys.init [Action.handler, Action.provider 0, Action.provider 1] = some s ∧
      s.pc = HandlerPc.recv 0 ∧ ∀ a, step net vars s a = none) := by
  have hall : ∀ acts s, run net vars Sys.init acts = some s →
      s.w = { header := [], status := none, body := "" } ∧ s.pc ≠ HandlerPc.returned ∧
      s.received = [] ∧ ∀ i, step net vars s (Action.rendezvous i) = none := by
    intro acts s hrun
    have hinv := Inv_reachable net vars acts s hrun
    refine ⟨?_, ?_, ?_, rendezvous_disabled net vars cep h hv hb s hinv⟩
    · cases hpc : s.pc with
      | entry =>
        simp only [Inv, hpc] at hinv
        subst hinv
        rfl
      | recv ch =>
        simp only [Inv, hpc] at hinv
        obtain ⟨_, _, _, _, _, _, hw, _⟩ := hinv
        rw [hw]
        rfl
      | returned =>
        have := answered_body_mem net vars cep h s hinv
        simp only [Inv, hpc] at hinv
        rcases hinv with ⟨hc, _⟩ | ⟨_, v, _, _, _, hw, _⟩
        · rw [h] at hc
          simp at hc
        · have hm := (this (by rw [hw]; simp [okWriter])).2
          rw [hv, hb] at hm
          simp at hm
    · intro hpc
      have := answered_body_mem net vars cep h s hinv
      simp only [Inv, hpc] at hinv
      rcases hinv with ⟨hc, _⟩ | ⟨_, v, _, _, _, hw, _⟩
      · rw [h] at hc
        simp at hc
      · have hm := (this (by rw [hw]; simp [okWriter])).2
        rw [hv, hb] at hm
        simp at hm
    · cases hpc : s.pc with
      | entry =>
        simp only [Inv, hpc] at hinv
        subst hinv
        rfl
      | recv ch =>
        simp only [Inv, hpc] at hinv
        obtain ⟨_, _, _, _, _, _, _, hr, _⟩ := hinv
        exact hr
      | returned =>
        have := answered_body_mem net vars cep h s hinv
        simp only [Inv, hpc] at hinv
        rcases hinv with ⟨hc, _⟩ | ⟨_, v, _, _, _, hw, _⟩
        · rw [h] at hc
          simp at hc
        · have hm := (this (by rw [hw]; simp [okWriter])).2
          rw [hv, hb] at hm
          simp at hm
  refine ⟨hall, ?_⟩
  have hrun : run net vars Sys.init [Action.handler, Action.provider 0, Action.provider 1] =
      some { w := Sys.init.w, pc := HandlerPc.recv 0, chans := 1,
             goroutines :=
               [{ call := Call.viaCEP cep 0, started := true,
                  done := (advance [] (getAddressFromViaCEP net cep 0)).1,
                  todo := (advance [] (getAddressFromViaCEP net cep 0)).2 },
                { call := Call.brasilAPI cep 0, started := true,
                  done := (advance [] (getAddressFromBrasilAPI net cep 0)).1,
                  todo := (advance [] (getAddressFromBrasilAPI net cep 0)).2 }],
             received := [], log := ["Request received on server..."] } := by
    simp only [run, step, Sys.init]
    simp only [handlerEntry, h]
    simp [Call.run]
  refine ⟨_, hrun, rfl, ?_⟩
  intro a
  cases a with
  | handler => simp [step]
  | provider i =>
    rcases i with _ | _ | i <;> simp [step]
  | rendezvous i => exact (hall _ _ hrun).2.2.2 i

/-- C8, at a concrete input: in the world where every HTTP call runs into its
deadline, after both clients have finished nothing has been written and no
transition is enabled. -/
theorem C8_total_failure_never_answers_witness :
    run timeoutWorld sampleVars Sys.init [Action.handler, Action.provider 1, Action.provider 0] =
      some bothTimedOut ∧
    bothTimedOut.w = { header := [], status := none, body := "" } ∧
    bothTimedOut.pc ≠ HandlerPc.returned ∧
    ∀ i, step timeoutWorld sampleVars bothTimedOut (Action.rendezvous i) = none :=
  have h := (C8_total_failure_never_answers timeoutWorld sampleVars "01310-100" (by decide)
    (by decide) (by decide)).1
    [Action.handler, Action.provider 1, Action.provider 0] bothTimedOut (by rfl)
  ⟨by rfl, h.1, h.2.1, h.2.2.2⟩

end CepRace
